import Mathlib

/-!
Verification of the broadcast notification dispatcher (src/server.js).

The server resolves an audience selector into a set of FCM device tokens by
querying three Firestore collections (users, doctors, chws), deduplicates the
tokens, dispatches one batched push call, and records the outcome.  The
definitions below are a shallow embedding of that logic: JavaScript strings
become Lean `String`, nullable / possibly-missing fields become `Option`,
the Firestore collections become lists of records, and the external FCM call
becomes an oracle function passed in as an argument.
-/

/-- A document of the `users` collection: a possibly-missing `role` field and a
possibly-missing/null `fcmToken` field. -/
structure UserDoc where
  role : Option String
  fcmToken : Option String
deriving DecidableEq

/-- A document of the `doctors` or `chws` collection: only the token matters. -/
structure TokenDoc where
  fcmToken : Option String
deriving DecidableEq

/-- The Firestore data state seen by one broadcast request: the three
partitions queried by the audience resolver. -/
structure Db where
  users : List UserDoc
  doctors : List TokenDoc
  chws : List TokenDoc
deriving DecidableEq

/-- JavaScript `s.toLowerCase()` restricted to the ASCII range handled by
`Char.toLower` (all role and selector strings in play are ASCII). -/
def jsToLower (s : String) : String :=
  String.mk (s.data.map Char.toLower)

/-- JavaScript `s.slice(0, -1)` (server.js line 172): drop the last character,
the empty string for an empty input. -/
def jsSliceDropLast (s : String) : String :=
  String.mk s.data.dropLast

/-- JavaScript truthiness of an optional string value: `null`/missing and the
empty string are falsy. -/
def truthy : Option String → Bool
  | none => false
  | some s => s != ""

/-- server.js line 165: `userData.role ? userData.role.toString() : ''`.
For string-valued roles this is the role if present, else the empty string
(a present-but-empty role is falsy in JS and also yields the empty string). -/
def userRoleOf (u : UserDoc) : String :=
  match u.role with
  | some r => r
  | none => ""

/-- server.js lines 170-174: the flexible role match of the users-collection
scan.  `targetRole` is the already case-folded selector. -/
def isMatch (targetRole userRole : String) : Bool :=
  jsToLower userRole == targetRole ||
  jsToLower userRole == jsSliceDropLast targetRole ||
  (targetRole == "chws" && jsToLower userRole == "chw") ||
  (targetRole == "doctors" && jsToLower userRole == "doctor")

/-- One doctors/chws document's contribution: Firestore filter
`fcmToken != null` composed with the `if (token)` truthiness guard. -/
def collectFn (d : TokenDoc) : Option String :=
  match d.fcmToken with
  | some t => if t != "" then some t else none
  | none => none

/-- Tokens pushed from a doctors or chws collection snapshot. -/
def collectTokens (docs : List TokenDoc) : List String :=
  docs.filterMap collectFn

/-- One users document's contribution in the `audience === 'all'` branch
(server.js lines 79-87): role is logged but ignored. -/
def collectUserFn (u : UserDoc) : Option String :=
  match u.fcmToken with
  | some t => if t != "" then some t else none
  | none => none

/-- Tokens pushed from the users collection in the `all` branch. -/
def collectUserTokensAll (docs : List UserDoc) : List String :=
  docs.filterMap collectUserFn

/-- One users document's contribution in the role-filtered scan
(server.js lines 163-183): `if (token && isMatch) tokens.push(token)`. -/
def userScanFn (targetRole : String) (u : UserDoc) : Option String :=
  match u.fcmToken with
  | some t =>
      if (t != "") && isMatch targetRole (userRoleOf u) then some t else none
  | none => none

/-- Tokens pushed by the role-filtered users-collection scan. -/
def userScanTokens (targetRole : String) (users : List UserDoc) : List String :=
  users.filterMap (userScanFn targetRole)

/-- The `else` branch of the resolver (server.js lines 117-185):
conditionally the chws collection, conditionally the doctors collection,
then always the role-filtered users scan, in source push order. -/
def roleBranchTokens (targetRole : String) (db : Db) : List String :=
  (if targetRole = "chws" ∨ targetRole = "chw" then collectTokens db.chws else []) ++
  (if targetRole = "doctors" ∨ targetRole = "doctor" then collectTokens db.doctors else []) ++
  userScanTokens targetRole db.users

/-- The raw `tokens` array accumulated by the resolver (server.js lines
68-185).  The `all` test is a case-sensitive exact comparison; every other
audience is case-folded into `targetRole`. -/
def tokensFor (audience : String) (db : Db) : List String :=
  if audience = "all" then
    collectUserTokensAll db.users ++ collectTokens db.doctors ++ collectTokens db.chws
  else
    roleBranchTokens (jsToLower audience) db

/-- Worker for `jsDedup`, carrying the set of already-emitted tokens;
keeps the first occurrence of each token, like iterating a JS `Set`. -/
def jsDedupGo (seen : List String) : List String → List String
  | [] => []
  | x :: xs =>
      if x ∈ seen then jsDedupGo seen xs else x :: jsDedupGo (x :: seen) xs

/-- server.js line 188: `const uniqueTokens = [...new Set(tokens)]` —
first-occurrence-preserving deduplication. -/
def jsDedup (l : List String) : List String :=
  jsDedupGo [] l

/-- The resolver end to end: the deduplicated token list for a selector. -/
def resolve (audience : String) (db : Db) : List String :=
  jsDedup (tokensFor audience db)

theorem mem_jsDedupGo {t : String} {seen l : List String} :
    t ∈ jsDedupGo seen l ↔ t ∈ l ∧ t ∉ seen := by
  induction l generalizing seen with
  | nil => simp [jsDedupGo]
  | cons x xs ih =>
    by_cases hx : x ∈ seen
    · rw [jsDedupGo, if_pos hx, ih]
      constructor
      · rintro ⟨h1, h2⟩
        exact ⟨List.mem_cons_of_mem _ h1, h2⟩
      · rintro ⟨h1, h2⟩
        rcases List.mem_cons.mp h1 with h1 | h1
        · exact absurd (h1 ▸ hx) h2
        · exact ⟨h1, h2⟩
    · rw [jsDedupGo, if_neg hx]
      constructor
      · intro h
        rcases List.mem_cons.mp h with h | h
        · exact ⟨h ▸ List.mem_cons_self x xs, h ▸ hx⟩
        · rcases ih.mp h with ⟨h1, h2⟩
          exact ⟨List.mem_cons_of_mem _ h1, fun hs => h2 (List.mem_cons_of_mem _ hs)⟩
      · rintro ⟨h1, h2⟩
        rcases List.mem_cons.mp h1 with h1 | h1
        · exact h1 ▸ List.mem_cons_self x _
        · by_cases hxt : t = x
          · exact hxt ▸ List.mem_cons_self x _
          · exact List.mem_cons_of_mem _ (ih.mpr ⟨h1, by
              intro hs
              rcases List.mem_cons.mp hs with hs | hs
              · exact hxt hs
              · exact h2 hs⟩)

theorem mem_jsDedup {t : String} {l : List String} :
    t ∈ jsDedup l ↔ t ∈ l := by
  rw [jsDedup, mem_jsDedupGo]
  simp

theorem nodup_jsDedupGo (seen l : List String) : (jsDedupGo seen l).Nodup := by
  induction l generalizing seen with
  | nil => simp [jsDedupGo]
  | cons x xs ih =>
    by_cases hx : x ∈ seen
    · rw [jsDedupGo, if_pos hx]
      exact ih seen
    · rw [jsDedupGo, if_neg hx]
      refine List.nodup_cons.mpr ⟨?_, ih (x :: seen)⟩
      intro hmem
      exact (mem_jsDedupGo.mp hmem).2 (List.mem_cons_self x seen)

theorem nodup_jsDedup (l : List String) : (jsDedup l).Nodup :=
  nodup_jsDedupGo [] l

/-- The role-match test, unfolded from `Bool` connectives to a proposition. -/
theorem isMatch_iff (tg r : String) :
    isMatch tg r = true ↔
      (jsToLower r = tg ∨ jsToLower r = jsSliceDropLast tg ∨
       (tg = "chws" ∧ jsToLower r = "chw") ∨
       (tg = "doctors" ∧ jsToLower r = "doctor")) := by
  simp [isMatch, Bool.or_eq_true, Bool.and_eq_true, beq_iff_eq, or_assoc]

/-- The per-batch result object returned by FCM's `sendEachForMulticast`:
the two counters the server reads (server.js lines 214-215). -/
structure SendResponse where
  successCount : Nat
  failureCount : Nat
deriving DecidableEq

/-- Outcome of the dispatch step (server.js lines 191-233): the two tallies
plus whether the external push call was actually issued. -/
structure DispatchResult where
  successCount : Nat
  failureCount : Nat
  pushInvoked : Bool
deriving DecidableEq

/-- The dispatch step.  `fcm` is the external `sendEachForMulticast` call,
modelled as an oracle from the token list to either a response or a thrown
error.  With a non-empty token list the call is issued once and a thrown
error is swallowed by the `catch (fcmError)` block, leaving both counters
at their initial 0; with an empty list the call is skipped entirely. -/
def dispatch (uniqueTokens : List String)
    (fcm : List String → Except String SendResponse) : DispatchResult :=
  if uniqueTokens.length > 0 then
    match fcm uniqueTokens with
    | Except.ok r => ⟨r.successCount, r.failureCount, true⟩
    | Except.error _ => ⟨0, 0, true⟩
  else
    ⟨0, 0, false⟩

/-- Body of a POST /api/send-broadcast request; each field may be absent. -/
structure SendRequest where
  message : Option String
  audience : Option String
  adminId : Option String
deriving DecidableEq

/-- Final state of the broadcast record written for one request: created as
`pending` (server.js lines 58-64) and updated in place to `sent` with the
tallies (lines 236-241). -/
structure BroadcastRecord where
  message : String
  audience : String
  sentBy : String
  status : String
  recipientCount : Nat
  successCount : Nat
  failureCount : Nat
deriving DecidableEq

/-- The success response body: `count`, `successCount`, `failureCount`
(server.js lines 243-253). -/
structure ResponseBody where
  count : Nat
  successCount : Nat
  failureCount : Nat
deriving DecidableEq

/-- Observable outcome of one POST /api/send-broadcast request: HTTP status,
the broadcast record's final state (none when never created), which
partitions were queried, whether the push call was issued, and the success
body (none on an error response). -/
structure SendOutcome where
  statusCode : Nat
  record : Option BroadcastRecord
  queriedPartitions : List String
  pushCalled : Bool
  response : Option ResponseBody
deriving DecidableEq

/-- The partition queries the resolver issues for a given audience, in
source order (server.js lines 70-158). -/
def queriesFor (audience : String) : List String :=
  if audience = "all" then
    ["users", "doctors", "chws"]
  else
    (if jsToLower audience = "chws" ∨ jsToLower audience = "chw" then ["chws"] else []) ++
    (if jsToLower audience = "doctors" ∨ jsToLower audience = "doctor" then ["doctors"] else []) ++
    ["users"]

/-- The POST /api/send-broadcast handler (server.js lines 43-263): validate,
create the pending record, resolve the audience, dispatch, update the record
to `sent`, respond.  Validation failure returns 400 before any side effect. -/
def sendBroadcast (req : SendRequest) (db : Db)
    (fcm : List String → Except String SendResponse) : SendOutcome :=
  if !truthy req.message || !truthy req.audience || !truthy req.adminId then
    { statusCode := 400, record := none, queriedPartitions := [],
      pushCalled := false, response := none }
  else
    let message := req.message.getD ""
    let audience := req.audience.getD ""
    let adminId := req.adminId.getD ""
    let uniqueTokens := resolve audience db
    let d := dispatch uniqueTokens fcm
    { statusCode := 200,
      record := some ⟨message, audience, adminId, "sent",
                      uniqueTokens.length, d.successCount, d.failureCount⟩,
      queriedPartitions := queriesFor audience,
      pushCalled := d.pushInvoked,
      response := some ⟨uniqueTokens.length, d.successCount, d.failureCount⟩ }

/-- A stored document of the `broadcast_notifications` collection as the
history endpoint may find it: `sentAt` (the ordering key) plus the optional
fields it defaults. -/
structure StoredBroadcast where
  sentAt : Nat
  message : Option String
  audience : Option String
  sentBy : Option String
  status : Option String
  recipientCount : Option Nat
  successCount : Option Nat
  failureCount : Option Nat
deriving DecidableEq

/-- One entry of the history response (server.js lines 278-288). -/
structure HistoryEntry where
  message : String
  audience : String
  sentAt : Nat
  sentBy : String
  status : String
  recipientCount : Nat
  successCount : Nat
  failureCount : Nat
deriving DecidableEq

/-- JavaScript `o || d` for an optional string field: missing, null and the
empty string all fall back to the default. -/
def jsOrStr (o : Option String) (d : String) : String :=
  match o with
  | some s => if s = "" then d else s
  | none => d

/-- JavaScript `o || 0` for an optional numeric field. -/
def jsOrNat (o : Option Nat) : Nat :=
  match o with
  | some n => n
  | none => 0

/-- Mapping of one stored document to a history entry, with the defaults of
server.js lines 280-287. -/
def toHistoryEntry (r : StoredBroadcast) : HistoryEntry :=
  { message := jsOrStr r.message ""
    audience := jsOrStr r.audience "all"
    sentAt := r.sentAt
    sentBy := jsOrStr r.sentBy ""
    status := jsOrStr r.status "unknown"
    recipientCount := jsOrNat r.recipientCount
    successCount := jsOrNat r.successCount
    failureCount := jsOrNat r.failureCount }

/-- Firestore's `orderBy('sentAt', 'desc')` ordering on stored documents. -/
def byRecency : StoredBroadcast → StoredBroadcast → Prop :=
  fun a b => b.sentAt ≤ a.sentAt

instance : DecidableRel byRecency :=
  fun a b => inferInstanceAs (Decidable (b.sentAt ≤ a.sentAt))

instance : IsTotal StoredBroadcast byRecency :=
  ⟨fun a b => (Nat.le_total b.sentAt a.sentAt).imp id id⟩

instance : IsTrans StoredBroadcast byRecency :=
  ⟨fun _ _ _ hab hbc => Nat.le_trans hbc hab⟩

/-- The GET /api/broadcast-history handler (server.js lines 266-296).
`limitParam` is the result of `parseInt(req.query.limit)` (`none` for a
missing or unparsable parameter, which is NaN in JS); `parseInt(...) || 10`
maps NaN and 0 to the default 10.  The stored documents are ordered by
`sentAt` descending, truncated to the limit, and mapped with the defaults. -/
def jsLimit (limitParam : Option Int) : Int :=
  match limitParam with
  | some n => if n = 0 then 10 else n
  | none => 10

def listRecent (limitParam : Option Int) (store : List StoredBroadcast) :
    List HistoryEntry :=
  ((store.insertionSort byRecency).take (jsLimit limitParam).toNat).map toHistoryEntry

theorem tokensFor_of_ne_all (a : String) (db : Db) (h : a ≠ "all") :
    tokensFor a db = roleBranchTokens (jsToLower a) db := by
  rw [tokensFor, if_neg h]

theorem tokensFor_all (db : Db) :
    tokensFor "all" db =
      collectUserTokensAll db.users ++ collectTokens db.doctors ++ collectTokens db.chws := by
  rw [tokensFor, if_pos rfl]

theorem userScan_subset_all (tg : String) (us : List UserDoc) {t : String}
    (h : t ∈ userScanTokens tg us) : t ∈ collectUserTokensAll us := by
  rw [userScanTokens, List.mem_filterMap] at h
  rcases h with ⟨u, hu, hf⟩
  rw [collectUserTokensAll, List.mem_filterMap]
  refine ⟨u, hu, ?_⟩
  cases hft : u.fcmToken with
  | none => simp [userScanFn, hft] at hf
  | some s =>
    simp only [userScanFn, hft] at hf
    simp only [collectUserFn, hft]
    by_cases hcond : (s != "" && isMatch tg (userRoleOf u)) = true
    · rw [if_pos hcond] at hf
      have h1 : (s != "") = true := by
        simp only [Bool.and_eq_true] at hcond
        exact hcond.1
      rw [if_pos h1]
      exact hf
    · rw [if_neg hcond] at hf
      exact absurd hf (by simp)

/-- Claim C1 (counterexample): the claim's example "target `nurse` matches
role `nurses`" is false on the code: with a single general user of role
`nurses` holding non-empty token `t1`, resolving selector `nurse` yields
the empty set. -/
theorem c1_counterexample :
    "t1" ∉ resolve "nurse" ⟨[⟨some "nurses", some "t1"⟩], [], []⟩ ∧
    resolve "nurse" ⟨[⟨some "nurses", some "t1"⟩], [], []⟩ = [] := by
  decide

/-- Claim C1 (amended): for a non-`all` selector, the single general-user
record with role `role` and non-empty token `t` is resolved exactly when the
case-folded role equals the case-folded selector, or equals the case-folded
selector with its trailing character stripped, or the pair is (selector
`chws`, role `chw`) or (selector `doctors`, role `doctor`).  The trailing
character is stripped from the SELECTOR, so target `nurses` matches role
`nurse` and target `bus` matches role `bu`, while target `nurse` does not
match role `nurses`. -/
theorem c1_role_match_characterization (sel role t : String)
    (hsel : sel ≠ "all") (ht : t ≠ "") :
    (t ∈ resolve sel ⟨[⟨some role, some t⟩], [], []⟩) ↔
      (jsToLower role = jsToLower sel ∨
       jsToLower role = jsSliceDropLast (jsToLower sel) ∨
       (jsToLower sel = "chws" ∧ jsToLower role = "chw") ∨
       (jsToLower sel = "doctors" ∧ jsToLower role = "doctor")) := by
  rw [resolve, mem_jsDedup, tokensFor_of_ne_all _ _ hsel, ← isMatch_iff]
  simp [roleBranchTokens, userScanTokens, userScanFn, collectTokens,
    collectFn, userRoleOf, ht]

/-- Claim C1 witness: the amended characterization instantiated at selector
`nurses`, role `nurse`, token `t1`. -/
theorem c1_witness :
    ("t1" ∈ resolve "nurses" ⟨[⟨some "nurse", some "t1"⟩], [], []⟩) ↔
      (jsToLower "nurse" = jsToLower "nurses" ∨
       jsToLower "nurse" = jsSliceDropLast (jsToLower "nurses") ∨
       (jsToLower "nurses" = "chws" ∧ jsToLower "nurse" = "chw") ∨
       (jsToLower "nurses" = "doctors" ∧ jsToLower "nurse" = "doctor")) :=
  c1_role_match_characterization "nurses" "nurse" "t1" (by decide) (by decide)

/-- Claim C2 (counterexample): selectors `CHWS` and `chw` do NOT always
resolve to the same set: a general user with role `chws` matches the
case-folded selector `chws` but not the case-folded selector `chw`. -/
theorem c2_counterexample :
    resolve "CHWS" ⟨[⟨some "chws", some "t1"⟩], [], []⟩ = ["t1"] ∧
    resolve "chw" ⟨[⟨some "chws", some "t1"⟩], [], []⟩ = [] ∧
    resolve "CHWS" ⟨[⟨some "chws", some "t1"⟩], [], []⟩ ≠
      resolve "chw" ⟨[⟨some "chws", some "t1"⟩], [], []⟩ := by
  decide

/-- Claim C2 (amended): selector matching is case-insensitive only up to
case-folding: for every data state, `CHWS` resolves like `chws` and `Chw`
resolves like `chw`; but `chws` and `chw` are different selectors and can
resolve differently (see the counterexample). -/
theorem c2_case_folding_only (db : Db) :
    resolve "CHWS" db = resolve "chws" db ∧ resolve "Chw" db = resolve "chw" db := by
  constructor
  · rw [resolve, resolve, tokensFor_of_ne_all _ _ (by decide),
      tokensFor_of_ne_all _ _ (by decide)]
    rw [show jsToLower "CHWS" = jsToLower "chws" from by decide]
  · rw [resolve, resolve, tokensFor_of_ne_all _ _ (by decide),
      tokensFor_of_ne_all _ _ (by decide)]
    rw [show jsToLower "Chw" = jsToLower "chw" from by decide]

/-- Claim C3 (counterexample): the `all` comparison is case-sensitive:
with one doctor-partition token `d1`, selector `ALL` resolves to the empty
set while selector `all` resolves to the full union. -/
theorem c3_counterexample :
    resolve "ALL" ⟨[], [⟨some "d1"⟩], []⟩ = [] ∧
    resolve "all" ⟨[], [⟨some "d1"⟩], []⟩ = ["d1"] ∧
    resolve "ALL" ⟨[], [⟨some "d1"⟩], []⟩ ≠ resolve "all" ⟨[], [⟨some "d1"⟩], []⟩ := by
  decide

/-- Claim C3 (amended): only the exact lowercase string `all` produces the
union of every partition; any other case variant such as `ALL` or `All` is
case-folded and treated as the literal role `all`, scanning only the
general-user partition. -/
theorem c3_exact_all_only (db : Db) :
    resolve "all" db =
      jsDedup (collectUserTokensAll db.users ++ collectTokens db.doctors ++
        collectTokens db.chws) ∧
    resolve "ALL" db = jsDedup (userScanTokens "all" db.users) ∧
    resolve "All" db = jsDedup (userScanTokens "all" db.users) := by
  refine ⟨by rw [resolve, tokensFor_all], ?_, ?_⟩
  · rw [resolve, tokensFor_of_ne_all _ _ (by decide),
      show jsToLower "ALL" = "all" from by decide, roleBranchTokens,
      if_neg (by decide), if_neg (by decide), List.nil_append, List.nil_append]
  · rw [resolve, tokensFor_of_ne_all _ _ (by decide),
      show jsToLower "All" = "all" from by decide, roleBranchTokens,
      if_neg (by decide), if_neg (by decide), List.nil_append, List.nil_append]

/-- Claim C4: for every selector and data state the resolved list has no
duplicate tokens; and in the spec's scenario (selector `doctors`, two
doctor-partition tokens `d1`,`d2`, one general user with role `doctor`
holding the already-counted token `d1`) the resolved set is exactly
`[d1, d2]` of size 2, not 3. -/
theorem c4_dedup :
    (∀ (sel : String) (db : Db), (resolve sel db).Nodup) ∧
    resolve "doctors"
      ⟨[⟨some "doctor", some "d1"⟩], [⟨some "d1"⟩, ⟨some "d2"⟩], []⟩ = ["d1", "d2"] ∧
    (resolve "doctors"
      ⟨[⟨some "doctor", some "d1"⟩], [⟨some "d1"⟩, ⟨some "d2"⟩], []⟩).length = 2 := by
  exact ⟨fun sel db => nodup_jsDedup _, by decide, by decide⟩

/-- Claim C5: for every selector and every data state, the set resolved for
the exact selector `all` is a superset of the set resolved for that
selector (so it contains the union over `doctors`, `chws`, and any specific
role). -/
theorem c5_all_superset (sel : String) (db : Db) :
    resolve sel db ⊆ resolve "all" db := by
  intro t ht
  rw [resolve, mem_jsDedup] at ht ⊢
  rw [tokensFor_all]
  by_cases h : sel = "all"
  · subst h
    rwa [tokensFor_all] at ht
  · rw [tokensFor_of_ne_all _ _ h, roleBranchTokens] at ht
    rcases List.mem_append.mp ht with hcd | hu
    · rcases List.mem_append.mp hcd with hc | hd
      · split at hc
        · exact List.mem_append_right _ hc
        · exact absurd hc (List.not_mem_nil t)
      · split at hd
        · exact List.mem_append_left _ (List.mem_append_right _ hd)
        · exact absurd hd (List.not_mem_nil t)
    · exact List.mem_append_left _ (List.mem_append_left _ (userScan_subset_all _ _ hu))

/-- Claim C5 witness: a doctor-partition token resolved for `doctors` is in
the set resolved for `all`. -/
theorem c5_witness : "d1" ∈ resolve "all" ⟨[], [⟨some "d1"⟩], []⟩ :=
  c5_all_superset "doctors" ⟨[], [⟨some "d1"⟩], []⟩ (by decide)

/-- Claim C10: for a single-character selector (necessarily not `all`),
stripping the trailing character of the case-folded selector yields the
empty string, so every general-user record with a truthy token whose role
is missing or empty matches and its token is resolved. -/
theorem c10_single_char_selector (sel : String) (db : Db) (u : UserDoc) (t : String)
    (hlen : sel.length = 1) (hu : u ∈ db.users) (htok : u.fcmToken = some t)
    (ht : t ≠ "") (hrole : u.role = none ∨ u.role = some "") :
    t ∈ resolve sel db := by
  have hsel : sel ≠ "all" := by
    intro h
    rw [h] at hlen
    exact absurd hlen (by decide)
  have hdata : sel.data.length = 1 := hlen
  have hempty : jsSliceDropLast (jsToLower sel) = "" := by
    rw [jsToLower, jsSliceDropLast]
    rcases hl : sel.data with _ | ⟨c, _ | ⟨c2, rest⟩⟩ <;> rw [hl] at hdata
    · exact absurd hdata (by decide)
    · rfl
    · exact absurd hdata (by simp)
  have hrole' : userRoleOf u = "" := by
    rcases hrole with h | h <;> simp [userRoleOf, h]
  have hmatch : isMatch (jsToLower sel) (userRoleOf u) = true := by
    rw [hrole']
    refine (isMatch_iff _ _).mpr (Or.inr (Or.inl ?_))
    rw [hempty]
    decide
  rw [resolve, mem_jsDedup, tokensFor_of_ne_all _ _ hsel, roleBranchTokens]
  refine List.mem_append_right _ ?_
  rw [userScanTokens, List.mem_filterMap]
  refine ⟨u, hu, ?_⟩
  have h1 : (t != "" && isMatch (jsToLower sel) (userRoleOf u)) = true := by
    simp only [Bool.and_eq_true]
    exact ⟨by simp [ht], hmatch⟩
  simp [userScanFn, htok, h1]

/-- Claim C10 witness: selector `s` resolves the token of a roleless
general user. -/
theorem c10_witness : "tk" ∈ resolve "s" ⟨[⟨none, some "tk"⟩], [], []⟩ :=
  c10_single_char_selector "s" ⟨[⟨none, some "tk"⟩], [], []⟩ ⟨none, some "tk"⟩ "tk"
    (by decide) (by decide) rfl (by decide) (Or.inl rfl)

/-- Claim C6: if the batch push call throws (e.g. a transport error), the
`catch (fcmError)` block swallows it: the request still succeeds (HTTP 200,
not an error response), the tallies reported are 0 successes and 0 failures,
and the broadcast record is still updated to status `sent` with those zero
tallies. -/
theorem c6_fcm_error_swallowed (req : SendRequest) (db : Db) (e : String)
    (fcm : List String → Except String SendResponse)
    (hm : truthy req.message = true) (ha : truthy req.audience = true)
    (hi : truthy req.adminId = true)
    (hfcm : fcm (resolve (req.audience.getD "") db) = Except.error e) :
    (sendBroadcast req db fcm).statusCode = 200 ∧
    (sendBroadcast req db fcm).response =
      some ⟨(resolve (req.audience.getD "") db).length, 0, 0⟩ ∧
    (sendBroadcast req db fcm).record =
      some ⟨req.message.getD "", req.audience.getD "", req.adminId.getD "", "sent",
            (resolve (req.audience.getD "") db).length, 0, 0⟩ := by
  have hd : dispatch (resolve (req.audience.getD "") db) fcm =
      ⟨0, 0, (resolve (req.audience.getD "") db).length > 0⟩ := by
    rw [dispatch]
    by_cases hn : (resolve (req.audience.getD "") db).length > 0
    · rw [if_pos hn, hfcm]
      simp [hn]
    · rw [if_neg hn]
      simp [hn]
  simp [sendBroadcast, hm, ha, hi, hd]

/-- Claim C6 witness: a concrete valid request against one doctor token with
a throwing push service. -/
theorem c6_witness :
    (sendBroadcast ⟨some "m", some "doctors", some "a"⟩ ⟨[], [⟨some "d1"⟩], []⟩
        (fun _ => Except.error "transport")).statusCode = 200 ∧
    (sendBroadcast ⟨some "m", some "doctors", some "a"⟩ ⟨[], [⟨some "d1"⟩], []⟩
        (fun _ => Except.error "transport")).response =
      some ⟨(resolve ((some "doctors").getD "") ⟨[], [⟨some "d1"⟩], []⟩).length, 0, 0⟩ ∧
    (sendBroadcast ⟨some "m", some "doctors", some "a"⟩ ⟨[], [⟨some "d1"⟩], []⟩
        (fun _ => Except.error "transport")).record =
      some ⟨(some "m").getD "", (some "doctors").getD "", (some "a").getD "", "sent",
            (resolve ((some "doctors").getD "") ⟨[], [⟨some "d1"⟩], []⟩).length, 0, 0⟩ :=
  c6_fcm_error_swallowed ⟨some "m", some "doctors", some "a"⟩ ⟨[], [⟨some "d1"⟩], []⟩
    "transport" (fun _ => Except.error "transport") rfl rfl rfl rfl

/-- Claim C7: a send request missing (or with a falsy) `message`, `audience`
or `adminId` yields a 400 response, creates no broadcast record, queries no
partition, and issues no push call — for every data state and push service,
validation short-circuits before any side effect. -/
theorem c7_validation_short_circuits (req : SendRequest) (db : Db)
    (fcm : List String → Except String SendResponse)
    (h : truthy req.message = false ∨ truthy req.audience = false ∨
      truthy req.adminId = false) :
    sendBroadcast req db fcm =
      { statusCode := 400, record := none, queriedPartitions := [],
        pushCalled := false, response := none } := by
  rcases h with h | h | h <;> simp [sendBroadcast, h]

/-- Claim C7 witness: a request with a missing message field. -/
theorem c7_witness :
    sendBroadcast ⟨none, some "all", some "a"⟩ ⟨[], [], []⟩
        (fun _ => Except.ok ⟨0, 0⟩) =
      { statusCode := 400, record := none, queriedPartitions := [],
        pushCalled := false, response := none } :=
  c7_validation_short_circuits ⟨none, some "all", some "a"⟩ ⟨[], [], []⟩
    (fun _ => Except.ok ⟨0, 0⟩) (Or.inl rfl)

/-- Claim C8: with an empty deduplicated token set the dispatch step is a
no-op — zero success and failure counts, the external push call is never
invoked — and at the endpoint level this is a normal non-error outcome:
HTTP 200 with a zero-count success body. -/
theorem c8_empty_tokens_noop :
    (∀ fcm, dispatch [] fcm = ⟨0, 0, false⟩) ∧
    (∀ (req : SendRequest) (db : Db) fcm,
      truthy req.message = true → truthy req.audience = true →
      truthy req.adminId = true →
      resolve (req.audience.getD "") db = [] →
      (sendBroadcast req db fcm).pushCalled = false ∧
      (sendBroadcast req db fcm).statusCode = 200 ∧
      (sendBroadcast req db fcm).response = some ⟨0, 0, 0⟩) := by
  constructor
  · intro fcm
    rw [dispatch, if_neg (by simp)]
  · intro req db fcm hm ha hi hres
    have hd0 : dispatch [] fcm = ⟨0, 0, false⟩ := by
      rw [dispatch, if_neg (by simp)]
    refine ⟨?_, ?_, ?_⟩ <;> simp [sendBroadcast, hm, ha, hi, hres, hd0]

/-- Claim C8 witness: a valid request whose audience matches no record. -/
theorem c8_witness :
    (sendBroadcast ⟨some "m", some "nobody", some "a"⟩ ⟨[], [], []⟩
        (fun _ => Except.ok ⟨5, 7⟩)).pushCalled = false ∧
    (sendBroadcast ⟨some "m", some "nobody", some "a"⟩ ⟨[], [], []⟩
        (fun _ => Except.ok ⟨5, 7⟩)).statusCode = 200 ∧
    (sendBroadcast ⟨some "m", some "nobody", some "a"⟩ ⟨[], [], []⟩
        (fun _ => Except.ok ⟨5, 7⟩)).response = some ⟨0, 0, 0⟩ :=
  c8_empty_tokens_noop.2 ⟨some "m", some "nobody", some "a"⟩ ⟨[], [], []⟩
    (fun _ => Except.ok ⟨5, 7⟩) rfl rfl rfl (by decide)

/-- Claim C9: the history listing defaults its limit to 10 (a missing or
unparsable limit parameter behaves like limit 10 and yields at most 10
entries), returns entries ordered newest first (non-increasing `sentAt`),
and maps a stored record with every optional field missing to the defaults:
empty message, audience `all`, status `unknown`, and zero counts. -/
theorem c9_history_contract :
    (∀ store, listRecent none store = listRecent (some 10) store) ∧
    (∀ store, (listRecent none store).length ≤ 10) ∧
    (∀ p store, List.Pairwise (fun a b : HistoryEntry => b.sentAt ≤ a.sentAt)
      (listRecent p store)) ∧
    (∀ ts, toHistoryEntry ⟨ts, none, none, none, none, none, none, none⟩ =
      ⟨"", "all", ts, "", "unknown", 0, 0, 0⟩) := by
  refine ⟨fun store => rfl, fun store => ?_, fun p store => ?_, fun ts => rfl⟩
  · rw [listRecent]
    simp only [List.length_map]
    exact List.length_take_le _ _
  · rw [listRecent]
    refine List.Pairwise.map _ (fun a b h => h) ?_
    exact List.Pairwise.sublist (List.take_sublist _ _)
      (List.sorted_insertionSort byRecency store)
